import Mathlib

/-!
Verification development for the TMS telemetry polling and alerting engine
(Go backend).  Floating-point `float64` values in the source are embedded as
rationals (`ℚ`): every arithmetic step the claims depend on (offsets ≤ a few
hundred, two-decimal rounding, threshold comparison) is exact in `float64` at
the precision the theorems examine, and the rational model reproduces the
source's integer-truncation semantics bit for bit on those inputs.  Go machine
integers are embedded as `ℤ`/`ℕ`; byte buffers as `List ℕ` with explicit
`< 256` bounds where a theorem needs them; fallible byte indexing as `Option`.
Ambient wall-clock fields (insert/send/error timestamps, formatted date
strings) are omitted: no claim mentions them.
-/

/-- Go's `int(x)` conversion on a float truncates toward zero; on our rational
embedding that is `⌊q⌋` for non-negative `q` and `⌈q⌉` for negative `q`. -/
def goIntConv (q : ℚ) : ℤ :=
  if 0 ≤ q then ⌊q⌋ else ⌈q⌉

/-- `roundTo2Decimal` from `internal/tcpclient/tcpclient.go`:
`float64(int(val*100+0.5)) / 100`. -/
def roundTo2Decimal (val : ℚ) : ℚ :=
  ((goIntConv (val * 100 + 1/2) : ℚ)) / 100

/-- Modelled from the spec: rounding "to 2 decimal places using round-half-up",
i.e. `⌊x·100 + 1/2⌋ / 100` (ties go toward +∞).  Spec-side definition used to
compare against `roundTo2Decimal` above. -/
def roundHalfUpTo2 (val : ℚ) : ℚ :=
  ((⌊val * 100 + 1/2⌋ : ℤ) : ℚ) / 100

/-- Go's `math.Round`: round half away from zero.  Used by `pollAndSave` and
`checkAlerts` as `math.Round(adjustedTemp*100) / 100`. -/
def mathRound (q : ℚ) : ℤ :=
  if 0 ≤ q then ⌊q + 1/2⌋ else ⌈q - 1/2⌉

/-- `math.Round(x*100) / 100` as used on `adjustedTemp` in `polling.go`. -/
def roundHalfAway2 (q : ℚ) : ℚ :=
  ((mathRound (q * 100) : ℤ) : ℚ) / 100

/-- `ProbeData` from `internal/tcpclient/tcpclient.go` (the `Status` JSON field
is the constant string "00"; `RealValue` is a Go `int`). -/
structure ProbeData where
  probeNo : ℤ
  mcuId : String
  tempValue : ℚ
  realValue : ℤ
  status : String
deriving Repr, DecidableEq

/-- `parseHexResponse` from `internal/tcpclient/tcpclient.go`, embedded over a
byte list.  Byte indexing `data[i]` is embedded as `data.get? i` inside the
`Option` monad, so an out-of-range access would surface as `none`; the source's
guards (`len(data) < 9` early return, `len(data) >= 7`, `hasProbe2 && len(data)
>= 10`) appear verbatim.  `hasProbe2` mirrors the source's chained `if`:
`len == 12` sets it, else `indicator == 0x03` sets it, else it stays `false`
(the `len == 9` branch only re-assigns `false`).  `int(data[5])<<8 |
int(data[6])` is embedded with the same shift/or on `ℕ`. -/
def parseHexResponse (data : List ℕ) : Option (List ProbeData) :=
  if data.length < 9 then some []
  else do
    let b0 ← data.get? 0
    let b1 ← data.get? 1
    let b2 ← data.get? 2
    if ¬(b0 = 0x41 ∧ b1 = 0x41 ∧ b2 = 0x5a) then some []
    else do
      let probeIndicator ← data.get? 3
      let hasProbe2 : Bool := data.length = 12 ∨ probeIndicator = 0x03
      let b4 ← data.get? 4
      let probes1 ←
        if 7 ≤ data.length ∧ b4 = 0x5a then do
          let b5 ← data.get? 5
          let b6 ← data.get? 6
          let probe1Value : ℕ := b5 <<< 8 ||| b6
          some [ProbeData.mk 1 "A"
            (roundTo2Decimal (((probe1Value : ℤ) - 4000 : ℤ) * (1/100 : ℚ)))
            (probe1Value : ℤ) "00"]
        else some []
      let probes2 ←
        if hasProbe2 ∧ 10 ≤ data.length then do
          let b7 ← data.get? 7
          if b7 = 0x5a then do
            let b8 ← data.get? 8
            let b9 ← data.get? 9
            let probe2Value : ℕ := b8 <<< 8 ||| b9
            some [ProbeData.mk 2 "B"
              (roundTo2Decimal (((probe2Value : ℤ) - 4000 : ℤ) * (1/100 : ℚ)))
              (probe2Value : ℤ) "00"]
          else some []
        else some []
      some (probes1 ++ probes2)

/-- The probe-1 temperature pipeline of the decoder: raw 16-bit value to
reported temperature, `roundTo2Decimal(float64(value-4000) * 0.01)`. -/
def tempOfRaw (raw : ℤ) : ℚ :=
  roundTo2Decimal ((raw - 4000 : ℤ) * (1/100 : ℚ))

/-- The probe-1 `ProbeData` record built by the decoder for raw value `raw`. -/
def probe1Data (raw : ℕ) : ProbeData :=
  ProbeData.mk 1 "A" (tempOfRaw raw) (raw : ℤ) "00"

/-- The probe-2 `ProbeData` record built by the decoder for raw value `raw`. -/
def probe2Data (raw : ℕ) : ProbeData :=
  ProbeData.mk 2 "B" (tempOfRaw raw) (raw : ℤ) "00"

/-- Normal form of the decoder on a well-headed 9-byte frame. -/
theorem parseHexResponse_len9 (b3 b4 b5 b6 b7 b8 : ℕ) :
    parseHexResponse [0x41, 0x41, 0x5a, b3, b4, b5, b6, b7, b8] =
      some (if b4 = 0x5a then [probe1Data (b5 <<< 8 ||| b6)] else []) := by
  by_cases h4 : b4 = 0x5a <;>
    simp [parseHexResponse, probe1Data, tempOfRaw, h4]

/-- Normal form of the decoder on a well-headed frame of length ≥ 10. -/
theorem parseHexResponse_len10 (b3 b4 b5 b6 b7 b8 b9 : ℕ) (rest : List ℕ) :
    parseHexResponse (0x41 :: 0x41 :: 0x5a :: b3 :: b4 :: b5 :: b6 :: b7 :: b8 :: b9 :: rest) =
      some ((if b4 = 0x5a then [probe1Data (b5 <<< 8 ||| b6)] else []) ++
        (if rest.length = 2 ∨ b3 = 0x03 then
          (if b7 = 0x5a then [probe2Data (b8 <<< 8 ||| b9)] else []) else [])) := by
  by_cases h4 : b4 = 0x5a <;> by_cases hp : rest.length = 2 ∨ b3 = 0x03 <;>
    by_cases h7 : b7 = 0x5a <;>
    simp [parseHexResponse, probe1Data, probe2Data, tempOfRaw, h4, hp, h7]

/-- `goIntConv` on an integer plus one half: floors for non-negative integers
and ceils (adding one) for negative ones. -/
theorem goIntConv_int_add_half (k : ℤ) :
    goIntConv ((k : ℚ) + 1/2) = if 0 ≤ k then k else k + 1 := by
  unfold goIntConv
  rcases le_or_lt 0 k with hk | hk
  · have hq : (0 : ℚ) ≤ (k : ℚ) + 1/2 := by
      have : (0 : ℚ) ≤ (k : ℚ) := by exact_mod_cast hk
      linarith
    rw [if_pos hq, if_pos hk, Int.floor_int_add]
    norm_num
  · have hk1 : k ≤ -1 := by omega
    have hq : ¬ (0 : ℚ) ≤ (k : ℚ) + 1/2 := by
      have : (k : ℚ) ≤ -1 := by exact_mod_cast hk1
      linarith
    have hc : ⌈(1/2 : ℚ)⌉ = 1 := Int.ceil_eq_iff.mpr (by norm_num)
    rw [if_neg hq, if_neg (by omega), add_comm, Int.ceil_add_int, hc]
    omega

/-- Closed form of the decoder's reported temperature for an arbitrary raw
value: exact hundredths for `raw ≥ 4000`, but one hundredth above the exact
value for `raw < 4000`. -/
theorem tempOfRaw_closed (raw : ℤ) :
    tempOfRaw raw = if 4000 ≤ raw then ((raw : ℚ) - 4000) / 100
      else ((raw : ℚ) - 4000) / 100 + 1/100 := by
  unfold tempOfRaw roundTo2Decimal
  have h1 : ((raw - 4000 : ℤ) : ℚ) * (1/100 : ℚ) * 100 + 1/2
      = ((raw - 4000 : ℤ) : ℚ) + 1/2 := by ring
  rw [h1, goIntConv_int_add_half]
  rcases le_or_lt 4000 raw with hr | hr
  · rw [if_pos (by omega), if_pos hr]
    push_cast
    ring
  · rw [if_neg (by omega), if_neg (by omega)]
    push_cast
    ring

/-- Round-half-up is the identity on exact hundredths. -/
theorem roundHalfUpTo2_hundredth (k : ℤ) :
    roundHalfUpTo2 ((k : ℚ) * (1/100 : ℚ)) = (k : ℚ) / 100 := by
  unfold roundHalfUpTo2
  have h1 : (k : ℚ) * (1/100 : ℚ) * 100 + 1/2 = (k : ℚ) + 1/2 := by ring
  rw [h1]
  have h2 : ⌊(k : ℚ) + 1/2⌋ = k := by
    rw [add_comm, Int.floor_add_int]
    norm_num
  rw [h2]

/-- C4 counterexample: at raw value 3999 the decoder reports 0.00, while
round-half-up of the exact temperature −0.01 is −0.01 — the claimed rounding
rule fails below raw 4000. -/
theorem decode_rounding_negative_cex :
    tempOfRaw 3999 ≠ roundHalfUpTo2 ((3999 - 4000 : ℤ) * (1/100 : ℚ)) := by
  have h1 : tempOfRaw 3999 = 0 := by
    norm_num [tempOfRaw, roundTo2Decimal, goIntConv]
  have h2 : roundHalfUpTo2 ((3999 - 4000 : ℤ) * (1/100 : ℚ)) = -1/100 := by
    norm_num [roundHalfUpTo2]
  rw [h1, h2]
  norm_num

/-- C4 (amended): the reported temperature equals round-half-up of
`(raw − 4000) × 0.01` for raw ≥ 4000 (in particular raw 6563 decodes to
25.63), but for raw < 4000 the conversion truncates toward zero after adding
0.5 and reports one hundredth above round-half-up. -/
theorem decode_rounding_amended :
    (∀ raw : ℤ, 4000 ≤ raw →
        tempOfRaw raw = roundHalfUpTo2 ((raw - 4000 : ℤ) * (1/100 : ℚ))) ∧
    (∀ raw : ℤ, raw < 4000 →
        tempOfRaw raw = roundHalfUpTo2 ((raw - 4000 : ℤ) * (1/100 : ℚ)) + 1/100) ∧
    tempOfRaw 6563 = 2563 / 100 := by
  refine ⟨?_, ?_, ?_⟩
  · intro raw hr
    rw [tempOfRaw_closed, if_pos hr, roundHalfUpTo2_hundredth (raw - 4000)]
    push_cast
    ring
  · intro raw hr
    rw [tempOfRaw_closed, if_neg (by omega), roundHalfUpTo2_hundredth (raw - 4000)]
    push_cast
    ring
  · norm_num [tempOfRaw, roundTo2Decimal, goIntConv]

/-- Witness for the amended C4 rounding theorem at raw 6563 and raw 3999. -/
theorem decode_rounding_amended_witness :
    tempOfRaw 6563 = roundHalfUpTo2 ((6563 - 4000 : ℤ) * (1/100 : ℚ)) ∧
    tempOfRaw 3999 = roundHalfUpTo2 ((3999 - 4000 : ℤ) * (1/100 : ℚ)) + 1/100 :=
  ⟨decode_rounding_amended.1 6563 (by norm_num),
   decode_rounding_amended.2.1 3999 (by norm_num)⟩

/-- C3: on a well-headed frame of length ≥ 9, the decoder emits a probe-2
reading exactly when the frame is in two-probe mode — total length 12
(regardless of byte [3]) or byte [3] = 0x03 — and the buffer holds at least
10 bytes with byte [7] = 0x5A. -/
theorem two_probe_mode_char (data : List ℕ) (hlen : 9 ≤ data.length)
    (h0 : data.get? 0 = some 0x41) (h1 : data.get? 1 = some 0x41)
    (h2 : data.get? 2 = some 0x5a) :
    ∃ ps, parseHexResponse data = some ps ∧
      ((∃ p ∈ ps, p.probeNo = 2) ↔
        ((data.length = 12 ∨ data.get? 3 = some 0x03) ∧
          10 ≤ data.length ∧ data.get? 7 = some 0x5a)) := by
  rcases data with _ | ⟨b0, _ | ⟨b1, _ | ⟨b2, _ | ⟨b3, _ | ⟨b4, _ | ⟨b5, _ | ⟨b6, _ |
    ⟨b7, _ | ⟨b8, rest⟩⟩⟩⟩⟩⟩⟩⟩⟩
  · simp at hlen
  · simp at hlen
  · simp at hlen
  · simp at hlen
  · simp at hlen
  · simp at hlen
  · simp at hlen
  · simp at hlen
  · simp at hlen
  · simp only [List.get?, Option.some.injEq] at h0 h1 h2
    subst h0 h1 h2
    rcases rest with _ | ⟨b9, rest⟩
    · refine ⟨_, parseHexResponse_len9 b3 b4 b5 b6 b7 b8, ?_⟩
      by_cases h4 : b4 = 0x5a <;> simp [h4, probe1Data]
    · refine ⟨_, parseHexResponse_len10 b3 b4 b5 b6 b7 b8 b9 rest, ?_⟩
      by_cases hp : rest.length = 2 ∨ b3 = 0x03 <;> by_cases h7 : b7 = 0x5a <;>
        by_cases h4 : b4 = 0x5a <;>
        simp [hp, h7, h4, probe1Data, probe2Data, List.get?]

/-- Witness for the two-probe-mode characterization on the canonical 12-byte
two-probe frame. -/
theorem two_probe_mode_char_witness :
    ∃ ps, parseHexResponse
        [0x41, 0x41, 0x5a, 0x03, 0x5a, 0x19, 0xa3, 0x5a, 0x19, 0xae, 0x5a, 0x0d] = some ps ∧
      ((∃ p ∈ ps, p.probeNo = 2) ↔
        (([0x41, 0x41, 0x5a, 0x03, 0x5a, 0x19, 0xa3, 0x5a, 0x19, 0xae, 0x5a, 0x0d].length = 12 ∨
            ([0x41, 0x41, 0x5a, 0x03, 0x5a, 0x19, 0xa3, 0x5a, 0x19, 0xae, 0x5a,
              0x0d] : List ℕ).get? 3 = some 0x03) ∧
          10 ≤ [0x41, 0x41, 0x5a, 0x03, 0x5a, 0x19, 0xa3, 0x5a, 0x19, 0xae, 0x5a, 0x0d].length ∧
          ([0x41, 0x41, 0x5a, 0x03, 0x5a, 0x19, 0xa3, 0x5a, 0x19, 0xae, 0x5a,
            0x0d] : List ℕ).get? 7 = some 0x5a)) :=
  two_probe_mode_char
    [0x41, 0x41, 0x5a, 0x03, 0x5a, 0x19, 0xa3, 0x5a, 0x19, 0xae, 0x5a, 0x0d]
    (by decide) (by decide) (by decide) (by decide)

/-- Bad 3-byte header on a frame of length ≥ 9 yields an empty reading list. -/
theorem parseHexResponse_bad_header (b0 b1 b2 b3 b4 b5 b6 b7 b8 : ℕ) (rest : List ℕ)
    (hdr : ¬(b0 = 0x41 ∧ b1 = 0x41 ∧ b2 = 0x5a)) :
    parseHexResponse (b0 :: b1 :: b2 :: b3 :: b4 :: b5 :: b6 :: b7 :: b8 :: rest) = some [] := by
  simp [parseHexResponse, hdr]

/-- A frame shorter than 9 bytes yields an empty reading list. -/
theorem parseHexResponse_short (data : List ℕ) (hlen : data.length < 9) :
    parseHexResponse data = some [] := by
  simp [parseHexResponse, hlen]

/-- Raw values decoded from two bytes stay within 16 bits. -/
theorem rawValue_bound (b5 b6 : ℕ) (h5 : b5 < 256) (h6 : b6 < 256) :
    b5 <<< 8 ||| b6 ≤ 65535 := by
  have h : b5 <<< 8 ||| b6 < 2 ^ 16 := by
    apply Nat.or_lt_two_pow
    · rw [Nat.shiftLeft_eq]
      calc b5 * 2 ^ 8 < 256 * 2 ^ 8 := by omega
        _ ≤ 2 ^ 16 := by norm_num
    · omega
  omega

/-- C9 counterexample: on a 12-byte frame whose probe-1 separator (byte [4])
is bad but whose probe-2 separator is good, the decoder's non-empty output
starts with probe number 2, not 1. -/
theorem parse_first_reading_cex :
    parseHexResponse [0x41, 0x41, 0x5a, 0x03, 0x00, 0x19, 0xa3, 0x5a, 0x19, 0xae, 0x5a, 0x0d]
        = some [probe2Data 6574] ∧
      ([probe2Data 6574] : List ProbeData) ≠ [] ∧
      (probe2Data 6574).probeNo ≠ 1 := by
  refine ⟨?_, by simp, by simp [probe2Data]⟩
  rw [show ([0x41, 0x41, 0x5a, 0x03, 0x00, 0x19, 0xa3, 0x5a, 0x19, 0xae, 0x5a, 0x0d] : List ℕ)
      = 0x41 :: 0x41 :: 0x5a :: 0x03 :: 0x00 :: 0x19 :: 0xa3 :: 0x5a :: 0x19 :: 0xae ::
        [0x5a, 0x0d] from rfl,
    parseHexResponse_len10]
  simp only [show (25 <<< 8 ||| 174 : ℕ) = 6574 from rfl]
  norm_num [probe2Data, tempOfRaw, roundTo2Decimal, goIntConv]

/-- C9 (amended): on every byte list the decoder is total — every index it
touches is in bounds, so the `Option` embedding always returns `some` — with
at most two readings, each raw value within `[0, 65535]` (so never −1), and
the emitted probe-number sequence is one of `[]`, `[1]`, `[2]`, `[1, 2]`:
probe 1 precedes probe 2, but the first reading is probe 2 when the probe-1
separator check fails. -/
theorem parse_safe_amended (data : List ℕ) (hb : ∀ b ∈ data, b < 256) :
    ∃ ps, parseHexResponse data = some ps ∧ ps.length ≤ 2 ∧
      (∀ p ∈ ps, 0 ≤ p.realValue ∧ p.realValue ≤ 65535) ∧
      (ps.map ProbeData.probeNo = [] ∨ ps.map ProbeData.probeNo = [1] ∨
        ps.map ProbeData.probeNo = [2] ∨ ps.map ProbeData.probeNo = [1, 2]) := by
  by_cases hlen : data.length < 9
  · exact ⟨[], parseHexResponse_short data hlen, by simp, by simp, Or.inl rfl⟩
  · rcases data with _ | ⟨b0, _ | ⟨b1, _ | ⟨b2, _ | ⟨b3, _ | ⟨b4, _ | ⟨b5, _ | ⟨b6, _ |
      ⟨b7, _ | ⟨b8, rest⟩⟩⟩⟩⟩⟩⟩⟩⟩
    · simp at hlen
    · simp at hlen
    · simp at hlen
    · simp at hlen
    · simp at hlen
    · simp at hlen
    · simp at hlen
    · simp at hlen
    · simp at hlen
    · by_cases hdr : b0 = 0x41 ∧ b1 = 0x41 ∧ b2 = 0x5a
      · obtain ⟨rfl, rfl, rfl⟩ := hdr
        have h5 : b5 < 256 := hb b5 (by simp)
        have h6 : b6 < 256 := hb b6 (by simp)
        have hv1 := rawValue_bound b5 b6 h5 h6
        rcases rest with _ | ⟨b9, rest⟩
        · refine ⟨_, parseHexResponse_len9 b3 b4 b5 b6 b7 b8, ?_, ?_, ?_⟩ <;>
            by_cases h4 : b4 = 0x5a <;>
            simp [h4, probe1Data, probe2Data] <;> omega
        · have h8 : b8 < 256 := hb b8 (by simp)
          have h9 : b9 < 256 := hb b9 (by simp)
          have hv2 := rawValue_bound b8 b9 h8 h9
          refine ⟨_, parseHexResponse_len10 b3 b4 b5 b6 b7 b8 b9 rest, ?_, ?_, ?_⟩ <;>
            by_cases h4 : b4 = 0x5a <;> by_cases hp : rest.length = 2 ∨ b3 = 0x03 <;>
            by_cases h7 : b7 = 0x5a <;>
            simp [h4, hp, h7, probe1Data, probe2Data] <;> omega
      · exact ⟨[], parseHexResponse_bad_header b0 b1 b2 b3 b4 b5 b6 b7 b8 rest hdr,
          by simp, by simp, Or.inl rfl⟩

/-- Witness for the amended decoder-safety theorem on the canonical one-probe
frame. -/
theorem parse_safe_amended_witness :
    ∃ ps, parseHexResponse [0x41, 0x41, 0x5a, 0x00, 0x5a, 0x19, 0xa3, 0x5a, 0x0d] = some ps ∧
      ps.length ≤ 2 ∧
      (∀ p ∈ ps, 0 ≤ p.realValue ∧ p.realValue ≤ 65535) ∧
      (ps.map ProbeData.probeNo = [] ∨ ps.map ProbeData.probeNo = [1] ∨
        ps.map ProbeData.probeNo = [2] ∨ ps.map ProbeData.probeNo = [1, 2]) :=
  parse_safe_amended [0x41, 0x41, 0x5a, 0x00, 0x5a, 0x19, 0xa3, 0x5a, 0x0d] (by decide)

/-- `MasterMachine` from `internal/models/models.go`, restricted to the fields
the polling engine reads (threshold/calibration pointers become `Option ℚ`;
display-only columns are omitted). -/
structure MasterMachine where
  machineIP : String
  probeNo : ℤ
  machineName : String
  minTemp : Option ℚ
  maxTemp : Option ℚ
  adjTemp : Option ℚ
  sType : String
deriving Repr, DecidableEq, Inhabited

/-- `GetMinTemp`: the configured minimum, defaulting to 0 when NULL. -/
def MasterMachine.getMinTemp (m : MasterMachine) : ℚ := m.minTemp.getD 0

/-- `GetMaxTemp`: the configured maximum, defaulting to 100 when NULL. -/
def MasterMachine.getMaxTemp (m : MasterMachine) : ℚ := m.maxTemp.getD 100

/-- `GetAdjTemp`: the calibration offset, defaulting to 0 when NULL. -/
def MasterMachine.getAdjTemp (m : MasterMachine) : ℚ := m.adjTemp.getD 0

/-- The three-way status comparison written inline in `pollAndSave`,
`checkAlerts` and `checkProbeAlert`: "L" below min, "H" above max, else "N". -/
def tempStatusOf (minT maxT temp : ℚ) : String :=
  if temp < minT then "L" else if maxT < temp then "H" else "N"

/-- `fmt.Sprintf("%s:%d", machine.MachineIP, probeNo)`. -/
def alertKey (ip : String) (probeNo : ℤ) : String :=
  ip ++ ":" ++ toString probeNo

/-- `TempError` from `internal/models/models.go` as filled by
`checkProbeAlert` (timestamps omitted). -/
structure TempError where
  machineIP : String
  probeNo : ℤ
  machineName : String
  tempValue : ℚ
  minTemp : ℚ
  maxTemp : ℚ
  tempStatus : String
  errorType : String
  sType : String
deriving Repr, DecidableEq

/-- `AlertPayload` from the notification service as filled by
`checkProbeAlert` (date/time strings and the formatted Thai message omitted;
`alertType` distinguishes alert high/low from recovery "normal"). -/
structure AlertPayload where
  mcuID : String
  status : String
  tempValue : ℚ
  realValue : ℤ
  alertType : String
  machineName : String
  probeNo : ℤ
  minTemp : ℚ
  maxTemp : ℚ
deriving Repr, DecidableEq

/-- Result of one `checkProbeAlert` call: the updated global alert-state map,
the `temp_error` rows inserted, and the alert/recovery notifications
dispatched. -/
structure AlertCheckResult where
  states : String → String
  tempErrors : List TempError
  notifications : List AlertPayload

/-- `checkProbeAlert` from `polling.go` (part_001 lines 542-686).  The Go
alert-state map returns "" for a never-seen key, so the map is embedded as a
total function `String → String` with "" as the initial value everywhere.
`legacyEnabled` is `p.apiNotificationService.IsLegacyAPIEnabled()`; the
`temp_error` insert is not gated on it, the two notification sends are.
`RealValue: int(temp * 100)` uses Go's truncating conversion `goIntConv`.
State is updated only inside the `currentState != prevState` branch. -/
def checkProbeAlert (legacyEnabled : Bool) (machine : MasterMachine) (probeNo : ℤ)
    (temp : ℚ) (alertStates : String → String) : AlertCheckResult :=
  let key := alertKey machine.machineIP probeNo
  let prevState := alertStates key
  let minTemp := machine.getMinTemp
  let maxTemp := machine.getMaxTemp
  let currentState := tempStatusOf minTemp maxTemp temp
  if currentState = prevState then AlertCheckResult.mk alertStates [] []
  else
    let tempErrors :=
      if currentState = "H" ∨ currentState = "L" then
        [TempError.mk machine.machineIP probeNo machine.machineName temp
          minTemp maxTemp "p" "o" machine.sType]
      else []
    let alertNotifs :=
      if (currentState = "H" ∨ currentState = "L") ∧ legacyEnabled = true then
        [AlertPayload.mk machine.machineName
          (if currentState = "H" then "00000010" else "00000011")
          temp (goIntConv (temp * 100))
          (if currentState = "H" then "high" else "low")
          machine.machineName probeNo minTemp maxTemp]
      else []
    let recoveryNotifs :=
      if (currentState = "N" ∧ (prevState = "H" ∨ prevState = "L")) ∧ legacyEnabled = true then
        [AlertPayload.mk machine.machineName "00000001" temp (goIntConv (temp * 100))
          "normal" machine.machineName probeNo minTemp maxTemp]
      else []
    AlertCheckResult.mk (Function.update alertStates key currentState)
      tempErrors (alertNotifs ++ recoveryNotifs)

/-- Repeated `checkProbeAlert` evaluations of one probe key over a sequence of
calibrated values, threading the alert-state map and collecting the emitted
notifications in order. -/
def runProbeAlerts (legacyEnabled : Bool) (machine : MasterMachine) (probeNo : ℤ)
    (alertStates : String → String) : List ℚ → (String → String) × List AlertPayload
  | [] => (alertStates, [])
  | t :: ts =>
    let r := checkProbeAlert legacyEnabled machine probeNo t alertStates
    let rest := runProbeAlerts legacyEnabled machine probeNo r.states ts
    (rest.1, r.notifications ++ rest.2)

/-- Modelled from the spec: one emission per adjacent classification change —
kind "high"/"low" when the new classification is High/Low, kind "normal" when
it returns to Normal — and nothing when the classification is unchanged. -/
def specTransitionKinds : List String → List String
  | a :: b :: rest =>
    (if b ≠ a then [if b = "H" then "high" else if b = "L" then "low" else "normal"]
      else []) ++ specTransitionKinds (b :: rest)
  | _ => []

/-- Modelled from the spec: the number of adjacent-pair changes in a
classification sequence. -/
def countChanges : List String → ℕ
  | a :: b :: rest => (if b ≠ a then 1 else 0) + countChanges (b :: rest)
  | _ => 0

/-- Each emission in `specTransitionKinds` corresponds to exactly one
adjacent-pair change. -/
theorem specTransitionKinds_length : ∀ l, (specTransitionKinds l).length = countChanges l
  | [] => rfl
  | [_] => rfl
  | a :: b :: rest => by
    rw [specTransitionKinds, countChanges]
    rw [List.length_append, specTransitionKinds_length (b :: rest)]
    split_ifs <;> simp

/-- The status comparison only ever yields "L", "H" or "N". -/
theorem tempStatusOf_mem (minT maxT t : ℚ) :
    tempStatusOf minT maxT t = "L" ∨ tempStatusOf minT maxT t = "H" ∨
      tempStatusOf minT maxT t = "N" := by
  unfold tempStatusOf
  split_ifs <;> simp

/-- The notification kinds `checkProbeAlert` emits for one stored/current
status pair. -/
def stepKinds (prev c : String) : List String :=
  if c = prev then []
  else if c = "H" then ["high"]
  else if c = "L" then ["low"]
  else if prev = "H" ∨ prev = "L" then ["normal"]
  else []

/-- A Go map lookup of a never-stored key returns ""; the spec reads such a
lookup as Normal. -/
def normState (x : String) : String := if x = "" then "N" else x

/-- One `checkProbeAlert` call: the stored value for the probe's key becomes
the current status on change, and the emitted notification kinds are
`stepKinds` of the stored/current pair. -/
theorem checkProbeAlert_char (machine : MasterMachine) (probeNo : ℤ) (temp : ℚ)
    (s : String → String) :
    ((checkProbeAlert true machine probeNo temp s).states
        (alertKey machine.machineIP probeNo)
      = if tempStatusOf machine.getMinTemp machine.getMaxTemp temp
            = s (alertKey machine.machineIP probeNo)
          then s (alertKey machine.machineIP probeNo)
          else tempStatusOf machine.getMinTemp machine.getMaxTemp temp) ∧
    ((checkProbeAlert true machine probeNo temp s).notifications.map AlertPayload.alertType
      = stepKinds (s (alertKey machine.machineIP probeNo))
          (tempStatusOf machine.getMinTemp machine.getMaxTemp temp)) := by
  by_cases heq : tempStatusOf machine.getMinTemp machine.getMaxTemp temp
      = s (alertKey machine.machineIP probeNo)
  · simp [checkProbeAlert, heq, stepKinds]
  · rcases tempStatusOf_mem machine.getMinTemp machine.getMaxTemp temp with hc | hc | hc <;>
      rw [hc] at heq ⊢ <;>
      by_cases hp : s (alertKey machine.machineIP probeNo) = "H" ∨
        s (alertKey machine.machineIP probeNo) = "L" <;>
      simp [checkProbeAlert, hc, heq, hp, stepKinds, Ne.symm heq]

/-- `stepKinds` agrees with the spec's adjacent-pair rule once the stored ""
default is read as Normal. -/
theorem stepKinds_spec (prev c : String)
    (hprev : prev = "" ∨ prev = "N" ∨ prev = "H" ∨ prev = "L")
    (hc : c = "L" ∨ c = "H" ∨ c = "N") :
    stepKinds prev c = if c ≠ normState prev then
      [if c = "H" then "high" else if c = "L" then "low" else "normal"] else [] := by
  rcases hprev with rfl | rfl | rfl | rfl <;> rcases hc with rfl | rfl | rfl <;> rfl

/-- Running the alert tracker over a value sequence from any well-formed
stored state emits exactly the spec's transition kinds for the stored state
(read through `normState`) followed by the classification sequence. -/
theorem runProbeAlerts_kinds (machine : MasterMachine) (probeNo : ℤ) :
    ∀ (temps : List ℚ) (s : String → String),
      (s (alertKey machine.machineIP probeNo) = "" ∨
        s (alertKey machine.machineIP probeNo) = "N" ∨
        s (alertKey machine.machineIP probeNo) = "H" ∨
        s (alertKey machine.machineIP probeNo) = "L") →
      (runProbeAlerts true machine probeNo s temps).2.map AlertPayload.alertType
        = specTransitionKinds (normState (s (alertKey machine.machineIP probeNo))
            :: temps.map (tempStatusOf machine.getMinTemp machine.getMaxTemp))
  | [], s, hs => rfl
  | t :: ts, s, hs => by
    obtain ⟨hstate, hkinds⟩ := checkProbeAlert_char machine probeNo t s
    have hc3 := tempStatusOf_mem machine.getMinTemp machine.getMaxTemp t
    have hs' : (checkProbeAlert true machine probeNo t s).states
        (alertKey machine.machineIP probeNo) = "" ∨
      (checkProbeAlert true machine probeNo t s).states
        (alertKey machine.machineIP probeNo) = "N" ∨
      (checkProbeAlert true machine probeNo t s).states
        (alertKey machine.machineIP probeNo) = "H" ∨
      (checkProbeAlert true machine probeNo t s).states
        (alertKey machine.machineIP probeNo) = "L" := by
      rw [hstate]
      split_ifs with h
      · exact hs
      · tauto
    have ih := runProbeAlerts_kinds machine probeNo ts
      ((checkProbeAlert true machine probeNo t s).states) hs'
    have hnorm : normState ((checkProbeAlert true machine probeNo t s).states
        (alertKey machine.machineIP probeNo))
        = tempStatusOf machine.getMinTemp machine.getMaxTemp t := by
      rw [hstate]
      split_ifs with h
      · rw [← h]
        rcases hc3 with hc | hc | hc <;> rw [hc] <;> rfl
      · rcases hc3 with hc | hc | hc <;> rw [hc] <;> rfl
    show ((checkProbeAlert true machine probeNo t s).notifications ++
        (runProbeAlerts true machine probeNo
          ((checkProbeAlert true machine probeNo t s).states) ts).2).map
        AlertPayload.alertType = _
    rw [List.map_append, hkinds, ih, hnorm, List.map_cons]
    rw [show specTransitionKinds (normState (s (alertKey machine.machineIP probeNo)) ::
        tempStatusOf machine.getMinTemp machine.getMaxTemp t ::
        ts.map (tempStatusOf machine.getMinTemp machine.getMaxTemp))
      = (if tempStatusOf machine.getMinTemp machine.getMaxTemp t
            ≠ normState (s (alertKey machine.machineIP probeNo)) then
          [if tempStatusOf machine.getMinTemp machine.getMaxTemp t = "H" then "high"
            else if tempStatusOf machine.getMinTemp machine.getMaxTemp t = "L" then "low"
            else "normal"] else []) ++
        specTransitionKinds (tempStatusOf machine.getMinTemp machine.getMaxTemp t ::
          ts.map (tempStatusOf machine.getMinTemp machine.getMaxTemp)) from rfl]
    rw [stepKinds_spec _ _ (by tauto) (by tauto)]

/-- C1: starting from a never-seen probe key (stored "" read as Normal), the
alert tracker's notification kinds over any value sequence are exactly the
spec's one-emission-per-adjacent-change list — "high"/"low" on a change into
High/Low, "normal" on a change from High/Low back to Normal — so the number
of emissions equals the number of adjacent classification changes; the
sequence Normal,Normal,High,High,Normal yields exactly the alert-then-recovery
pair. -/
theorem alert_transition_emissions (machine : MasterMachine) (probeNo : ℤ)
    (temps : List ℚ) :
    ((runProbeAlerts true machine probeNo (fun _ => "") temps).2.map AlertPayload.alertType
      = specTransitionKinds
          ("N" :: temps.map (tempStatusOf machine.getMinTemp machine.getMaxTemp))) ∧
    ((runProbeAlerts true machine probeNo (fun _ => "") temps).2.length
      = countChanges
          ("N" :: temps.map (tempStatusOf machine.getMinTemp machine.getMaxTemp))) ∧
    specTransitionKinds ["N", "N", "N", "H", "H", "N"] = ["high", "normal"] := by
  have h := runProbeAlerts_kinds machine probeNo temps (fun _ => "") (Or.inl rfl)
  rw [show normState "" = "N" from rfl] at h
  refine ⟨h, ?_, rfl⟩
  have hlen := congrArg List.length h
  rw [List.length_map] at hlen
  rw [hlen, specTransitionKinds_length]

/-- `MaxSensorTemp = 80.0` from `polling.go`: readings above this are treated
as sensor errors. -/
def MaxSensorTemp : ℚ := 80

/-- Outcome of one `database.DB.Create(&tempLog)` call, as classified by
`pollAndSave`: success, duplicate-key error ("Duplicate entry" / "1062"), or
any other error. -/
inductive DBResult where
  | ok
  | dup
  | fail
deriving Repr, DecidableEq

/-- `TempLog` from `internal/models/models.go` as filled by `pollAndSave`
(timestamps and date strings omitted). -/
structure TempLog where
  machineIP : String
  probeNo : ℤ
  mcuID : String
  tempValue : ℚ
  realValue : ℤ
  status : String
deriving Repr, DecidableEq

/-- `TempLogPayload` sent to the legacy API on a successful save (date/time
omitted). -/
structure TempLogPayload where
  mcuID : String
  status : String
  tempValue : ℚ
  realValue : ℤ
deriving Repr, DecidableEq

/-- `DataSavedEvent` from `polling.go` (`Saved`/`Errors` JSON fields). -/
structure DataSavedEvent where
  saved : ℕ
  errorTally : ℕ
deriving Repr, DecidableEq

/-- The MQTT/SSE temperature payload collected by `checkAlerts`
(timestamp omitted). -/
structure MQTTTemperaturePayload where
  machineName : String
  tempValue : ℚ
  status : String
deriving Repr, DecidableEq

/-- The `probeConfigs` map built per IP: `probeConfigs[probe.ProbeNo] = probe`
over the group's probes in order (later entries overwrite earlier ones). -/
def buildProbeConfigs (probes : List MasterMachine) : ℤ → Option MasterMachine :=
  probes.foldl (fun acc p => Function.update acc p.probeNo (some p)) (fun _ => none)

/-- The fallback config when `probeConfigs[probeData.ProbeNo]` misses:
`probes[0]` with its `ProbeNo` overwritten by the reading's probe number. -/
def fallbackConfig (probes : List MasterMachine) (probeNo : ℤ) : MasterMachine :=
  { probes.headI with probeNo := probeNo }

/-- The config-selection step of `pollAndSave`/`checkAlerts`: the mapped
config when present, otherwise the fallback. -/
def lookupProbeConfig (probes : List MasterMachine) (probeNo : ℤ) : MasterMachine :=
  match buildProbeConfigs probes probeNo with
  | some cfg => cfg
  | none => fallbackConfig probes probeNo

/-- `pollAndSave` only: `if probeConfig.SType == "" { probeConfig.SType = "t" }`. -/
def defaultSType (cfg : MasterMachine) : MasterMachine :=
  if cfg.sType = "" then { cfg with sType := "t" } else cfg

/-- Accumulated observable effects of one poll-and-save cycle: the two
tallies, the per-attempt index into the persistence oracle, every `Create`
call issued, every legacy-API send dispatched, every `temp_error` row, every
alert/recovery notification, and the global alert-state map. -/
structure PollAcc where
  savedCount : ℕ
  errorCount : ℕ
  attemptIndex : ℕ
  attemptedLogs : List TempLog
  legacySends : List TempLogPayload
  tempErrors : List TempError
  alertNotifs : List AlertPayload
  states : String → String

/-- The per-reading body of the `pollAndSave` loop (part_001 lines 321-419).
The persistence oracle `db` yields the outcome of the i-th `Create` call of
the cycle.  Order as in source: sentinel skip, config lookup with fallback,
sType default, calibration + `math.Round`, sanity-ceiling skip, status,
insert (duplicate → skip, other error → error counter, success → saved
counter and legacy send when enabled), then `checkProbeAlert`. -/
def pollProcessReading (legacyEnabled : Bool) (db : ℕ → DBResult) (ip : String)
    (probes : List MasterMachine) (acc : PollAcc) (pd : ProbeData) : PollAcc :=
  if pd.realValue = 65535 ∨ pd.realValue = -1 then acc
  else
    let probeConfig := defaultSType (lookupProbeConfig probes pd.probeNo)
    let adjustedTemp := roundHalfAway2 (pd.tempValue + probeConfig.getAdjTemp)
    if MaxSensorTemp < adjustedTemp then acc
    else
      let tempStatus := tempStatusOf probeConfig.getMinTemp probeConfig.getMaxTemp adjustedTemp
      let tempLog := TempLog.mk ip pd.probeNo pd.mcuId adjustedTemp pd.realValue tempStatus
      let acc1 := { acc with
        attemptIndex := acc.attemptIndex + 1,
        attemptedLogs := acc.attemptedLogs ++ [tempLog] }
      let acc2 :=
        match db acc.attemptIndex with
        | DBResult.dup => acc1
        | DBResult.fail => { acc1 with errorCount := acc1.errorCount + 1 }
        | DBResult.ok => { acc1 with
            savedCount := acc1.savedCount + 1,
            legacySends := acc1.legacySends ++
              (if legacyEnabled then
                [TempLogPayload.mk probeConfig.machineName "00000110" adjustedTemp pd.realValue]
              else []) }
      let r := checkProbeAlert legacyEnabled probeConfig pd.probeNo adjustedTemp acc2.states
      { acc2 with
        states := r.states,
        tempErrors := acc2.tempErrors ++ r.tempErrors,
        alertNotifs := acc2.alertNotifs ++ r.notifications }

/-- One IP group of a cycle: the endpoint, its configured probes, and the
readings decoded from its TCP response. -/
structure PollGroup where
  ip : String
  probes : List MasterMachine
  readings : List ProbeData

/-- The per-IP inner loop of `pollAndSave`. -/
def pollAndSaveGroup (legacyEnabled : Bool) (db : ℕ → DBResult) (g : PollGroup)
    (acc : PollAcc) : PollAcc :=
  g.readings.foldl (pollProcessReading legacyEnabled db g.ip g.probes) acc

/-- The starting accumulator of a cycle (`savedCount := 0`, `errorCount := 0`),
over the current global alert-state map. -/
def initialPollAcc (states : String → String) : PollAcc :=
  PollAcc.mk 0 0 0 [] [] [] [] states

/-- A whole `pollAndSave` cycle over its IP groups, ending with
`notifySubscribers(DataSavedEvent{Saved: savedCount, Errors: errorCount})`. -/
def pollAndSaveCycle (legacyEnabled : Bool) (db : ℕ → DBResult)
    (groups : List PollGroup) (states0 : String → String) : PollAcc × DataSavedEvent :=
  let acc := groups.foldl (fun a g => pollAndSaveGroup legacyEnabled db g a)
    (initialPollAcc states0)
  (acc, DataSavedEvent.mk acc.savedCount acc.errorCount)

/-- Accumulated observable effects of one alert-check cycle. -/
structure AlertAcc where
  tempErrors : List TempError
  alertNotifs : List AlertPayload
  mqttPayloads : List MQTTTemperaturePayload
  states : String → String

/-- The per-reading body of the `checkAlerts` loop (part_001 lines 471-513):
sentinel skip, config lookup with fallback (no sType default here),
calibration + `math.Round`, sanity-ceiling skip, `checkProbeAlert`, then the
MQTT/SSE payload when the MQTT service is connected. -/
def alertProcessReading (legacyEnabled mqttConnected : Bool) (ip : String)
    (probes : List MasterMachine) (acc : AlertAcc) (pd : ProbeData) : AlertAcc :=
  if pd.realValue = 65535 ∨ pd.realValue = -1 then acc
  else
    let probeConfig := lookupProbeConfig probes pd.probeNo
    let adjustedTemp := roundHalfAway2 (pd.tempValue + probeConfig.getAdjTemp)
    if MaxSensorTemp < adjustedTemp then acc
    else
      let r := checkProbeAlert legacyEnabled probeConfig pd.probeNo adjustedTemp acc.states
      let tempStatus := tempStatusOf probeConfig.getMinTemp probeConfig.getMaxTemp adjustedTemp
      AlertAcc.mk (acc.tempErrors ++ r.tempErrors)
        (acc.alertNotifs ++ r.notifications)
        (acc.mqttPayloads ++
          (if mqttConnected then
            [MQTTTemperaturePayload.mk probeConfig.machineName adjustedTemp tempStatus]
          else []))
        r.states

/-- The sType default does not alter the calibration offset. -/
theorem defaultSType_getAdjTemp (m : MasterMachine) :
    (defaultSType m).getAdjTemp = m.getAdjTemp := by
  unfold defaultSType
  split_ifs <;> rfl

/-- The sType default does not alter the minimum threshold. -/
theorem defaultSType_getMinTemp (m : MasterMachine) :
    (defaultSType m).getMinTemp = m.getMinTemp := by
  unfold defaultSType
  split_ifs <;> rfl

/-- The sType default does not alter the maximum threshold. -/
theorem defaultSType_getMaxTemp (m : MasterMachine) :
    (defaultSType m).getMaxTemp = m.getMaxTemp := by
  unfold defaultSType
  split_ifs <;> rfl

/-- C2: a reading carrying the 0xFFFF/−1 sentinel, or whose calibrated value
exceeds the 80.0 sanity ceiling, leaves both cycle accumulators completely
unchanged — no persistence attempt, no tally change, no alert-state change,
no transition, no notification — in the poll-and-save and the alert-check
loop alike. -/
theorem skipped_reading_no_effect
    (legacyEnabled mqttConnected : Bool) (db : ℕ → DBResult) (ip : String)
    (probes : List MasterMachine) (pacc : PollAcc) (aacc : AlertAcc) (pd : ProbeData)
    (h : pd.realValue = 65535 ∨ pd.realValue = -1 ∨
      MaxSensorTemp < roundHalfAway2
        (pd.tempValue + (lookupProbeConfig probes pd.probeNo).getAdjTemp)) :
    pollProcessReading legacyEnabled db ip probes pacc pd = pacc ∧
    alertProcessReading legacyEnabled mqttConnected ip probes aacc pd = aacc := by
  rcases h with h | h | h
  · constructor <;> simp [pollProcessReading, alertProcessReading, h]
  · constructor <;> simp [pollProcessReading, alertProcessReading, h]
  · by_cases hs : pd.realValue = 65535 ∨ pd.realValue = -1
    · constructor <;> simp [pollProcessReading, alertProcessReading, hs]
    · constructor
      · simp [pollProcessReading, hs, defaultSType_getAdjTemp, h]
      · simp [alertProcessReading, hs, h]

/-- Witness: a sentinel reading (raw 65535) changes neither accumulator. -/
theorem skipped_reading_no_effect_witness :
    pollProcessReading false (fun _ => DBResult.ok) "10.0.0.1" []
        (initialPollAcc (fun _ => "")) (ProbeData.mk 1 "A" 25 65535 "00")
      = initialPollAcc (fun _ => "") ∧
    alertProcessReading false false "10.0.0.1" []
        (AlertAcc.mk [] [] [] (fun _ => "")) (ProbeData.mk 1 "A" 25 65535 "00")
      = AlertAcc.mk [] [] [] (fun _ => "") :=
  skipped_reading_no_effect false false (fun _ => DBResult.ok) "10.0.0.1" []
    (initialPollAcc (fun _ => "")) (AlertAcc.mk [] [] [] (fun _ => ""))
    (ProbeData.mk 1 "A" 25 65535 "00") (Or.inl rfl)

/-- A reading survives the sentinel and sanity filters of the cycle loops. -/
def readingEligible (probes : List MasterMachine) (pd : ProbeData) : Prop :=
  ¬(pd.realValue = 65535 ∨ pd.realValue = -1) ∧
  ¬(MaxSensorTemp < roundHalfAway2
      (pd.tempValue + (lookupProbeConfig probes pd.probeNo).getAdjTemp))

instance (probes : List MasterMachine) (pd : ProbeData) :
    Decidable (readingEligible probes pd) := by
  unfold readingEligible
  infer_instance

/-- One poll-loop reading: an eligible reading issues exactly one persistence
attempt and bumps exactly the tally matching its outcome (duplicates bump
neither); an ineligible reading leaves the accumulator unchanged. -/
theorem pollProcessReading_counts (legacyEnabled : Bool) (db : ℕ → DBResult)
    (ip : String) (probes : List MasterMachine) (acc : PollAcc) (pd : ProbeData) :
    (readingEligible probes pd →
      (pollProcessReading legacyEnabled db ip probes acc pd).attemptIndex
          = acc.attemptIndex + 1 ∧
      (pollProcessReading legacyEnabled db ip probes acc pd).savedCount
          = acc.savedCount + (if db acc.attemptIndex = DBResult.ok then 1 else 0) ∧
      (pollProcessReading legacyEnabled db ip probes acc pd).errorCount
          = acc.errorCount + (if db acc.attemptIndex = DBResult.fail then 1 else 0)) ∧
    (¬readingEligible probes pd →
      pollProcessReading legacyEnabled db ip probes acc pd = acc) := by
  constructor
  · rintro ⟨h1, h2⟩
    have h2' : ¬ MaxSensorTemp < roundHalfAway2
        (pd.tempValue + (defaultSType (lookupProbeConfig probes pd.probeNo)).getAdjTemp) := by
      rw [defaultSType_getAdjTemp]
      exact h2
    cases hdb : db acc.attemptIndex <;>
      simp [pollProcessReading, h1, h2', hdb]
  · intro h
    by_cases h1 : pd.realValue = 65535 ∨ pd.realValue = -1
    · simp [pollProcessReading, h1]
    · have h2 : MaxSensorTemp < roundHalfAway2
          (pd.tempValue + (lookupProbeConfig probes pd.probeNo).getAdjTemp) := by
        by_contra hx
        exact h ⟨h1, hx⟩
      have h2' : MaxSensorTemp < roundHalfAway2
          (pd.tempValue + (defaultSType (lookupProbeConfig probes pd.probeNo)).getAdjTemp) := by
        rw [defaultSType_getAdjTemp]
        exact h2
      simp [pollProcessReading, h1, h2']

/-- The number of `ok` outcomes among `len` consecutive oracle attempts
starting at index `start`. -/
def okCount (db : ℕ → DBResult) (start : ℕ) : ℕ → ℕ
  | 0 => 0
  | n + 1 => (if db start = DBResult.ok then 1 else 0) + okCount db (start + 1) n

/-- The number of non-duplicate failure outcomes among `len` consecutive
oracle attempts starting at index `start`. -/
def failCount (db : ℕ → DBResult) (start : ℕ) : ℕ → ℕ
  | 0 => 0
  | n + 1 => (if db start = DBResult.fail then 1 else 0) + failCount db (start + 1) n

/-- Folding the poll loop over a reading list: the attempt count advances by
the number of eligible readings, and the two tallies count the `ok`/`fail`
outcomes of exactly those consecutive oracle indices. -/
theorem pollFold_counts (legacyEnabled : Bool) (db : ℕ → DBResult) (ip : String)
    (probes : List MasterMachine) :
    ∀ (readings : List ProbeData) (acc : PollAcc),
      ((readings.foldl (pollProcessReading legacyEnabled db ip probes) acc).attemptIndex
        = acc.attemptIndex
          + readings.countP (fun pd => decide (readingEligible probes pd))) ∧
      ((readings.foldl (pollProcessReading legacyEnabled db ip probes) acc).savedCount
        = acc.savedCount
          + okCount db acc.attemptIndex
              (readings.countP (fun pd => decide (readingEligible probes pd)))) ∧
      ((readings.foldl (pollProcessReading legacyEnabled db ip probes) acc).errorCount
        = acc.errorCount
          + failCount db acc.attemptIndex
              (readings.countP (fun pd => decide (readingEligible probes pd))))
  | [], acc => by simp [okCount, failCount]
  | pd :: rest, acc => by
    have ih := pollFold_counts legacyEnabled db ip probes rest
      (pollProcessReading legacyEnabled db ip probes acc pd)
    by_cases he : readingEligible probes pd
    · obtain ⟨hidx, hsave, herr⟩ :=
        (pollProcessReading_counts legacyEnabled db ip probes acc pd).1 he
      have hd : decide (readingEligible probes pd) = true := decide_eq_true he
      have hcnt : (pd :: rest).countP (fun pd => decide (readingEligible probes pd))
          = rest.countP (fun pd => decide (readingEligible probes pd)) + 1 := by
        rw [List.countP_cons, hd]
        simp
      refine ⟨?_, ?_, ?_⟩
      · rw [List.foldl_cons, ih.1, hidx, hcnt]
        omega
      · rw [List.foldl_cons, ih.2.1, hsave, hidx, hcnt, okCount]
        omega
      · rw [List.foldl_cons, ih.2.2, herr, hidx, hcnt, failCount]
        omega
    · have hskip := (pollProcessReading_counts legacyEnabled db ip probes acc pd).2 he
      have hd : decide (readingEligible probes pd) = false := decide_eq_false he
      have hcnt : (pd :: rest).countP (fun pd => decide (readingEligible probes pd))
          = rest.countP (fun pd => decide (readingEligible probes pd)) := by
        rw [List.countP_cons, hd]
        simp
      rw [List.foldl_cons, hskip, hcnt]
      rw [hskip] at ih
      exact ih

/-- Additivity of the ok-outcome tally over consecutive index blocks. -/
theorem okCount_add (db : ℕ → DBResult) :
    ∀ (m s n : ℕ), okCount db s (m + n) = okCount db s m + okCount db (s + m) n
  | 0, s, n => by simp [okCount]
  | m + 1, s, n => by
    have h : m + 1 + n = (m + n) + 1 := by omega
    rw [h, okCount, okCount, okCount_add db m (s + 1) n]
    have h2 : s + 1 + m = s + (m + 1) := by omega
    rw [h2]
    omega

/-- Additivity of the failure tally over consecutive index blocks. -/
theorem failCount_add (db : ℕ → DBResult) :
    ∀ (m s n : ℕ), failCount db s (m + n) = failCount db s m + failCount db (s + m) n
  | 0, s, n => by simp [failCount]
  | m + 1, s, n => by
    have h : m + 1 + n = (m + n) + 1 := by omega
    rw [h, failCount, failCount, failCount_add db m (s + 1) n]
    have h2 : s + 1 + m = s + (m + 1) := by omega
    rw [h2]
    omega

/-- The number of readings in a cycle that survive the sentinel and sanity
filters, summed over all IP groups. -/
def eligibleCount (groups : List PollGroup) : ℕ :=
  (groups.map (fun g =>
    g.readings.countP (fun pd => decide (readingEligible g.probes pd)))).sum

/-- Folding the poll cycle over its IP groups accumulates the same tallies
group by group. -/
theorem pollCycleFold_counts (legacyEnabled : Bool) (db : ℕ → DBResult) :
    ∀ (groups : List PollGroup) (acc : PollAcc),
      (((groups.foldl (fun a g => pollAndSaveGroup legacyEnabled db g a) acc).attemptIndex
        = acc.attemptIndex + eligibleCount groups) ∧
      ((groups.foldl (fun a g => pollAndSaveGroup legacyEnabled db g a) acc).savedCount
        = acc.savedCount + okCount db acc.attemptIndex (eligibleCount groups)) ∧
      ((groups.foldl (fun a g => pollAndSaveGroup legacyEnabled db g a) acc).errorCount
        = acc.errorCount + failCount db acc.attemptIndex (eligibleCount groups)))
  | [], acc => by simp [eligibleCount, okCount, failCount]
  | g :: gs, acc => by
    have hg := pollFold_counts legacyEnabled db g.ip g.probes g.readings acc
    have ih := pollCycleFold_counts legacyEnabled db gs
      (pollAndSaveGroup legacyEnabled db g acc)
    have hel : eligibleCount (g :: gs)
        = g.readings.countP (fun pd => decide (readingEligible g.probes pd))
          + eligibleCount gs := by
      simp [eligibleCount]
    have hga : pollAndSaveGroup legacyEnabled db g acc
        = g.readings.foldl (pollProcessReading legacyEnabled db g.ip g.probes) acc := rfl
    refine ⟨?_, ?_, ?_⟩
    · simp only [List.foldl_cons]
      rw [ih.1, hga, hg.1, hel]
      omega
    · simp only [List.foldl_cons]
      rw [ih.2.1, hga, hg.2.1, hg.1, hel, okCount_add]
      omega
    · simp only [List.foldl_cons]
      rw [ih.2.2, hga, hg.2.2, hg.1, hel, failCount_add]
      omega

/-- C5: a persistence failure never aborts the cycle — every eligible reading
of every group issues its attempt — duplicate outcomes bump neither tally,
`ok` bumps only the saved tally, any other failure bumps only the error
tally, and the published `DataSavedEvent` carries exactly those two
tallies. -/
theorem poll_cycle_tallies (legacyEnabled : Bool) (db : ℕ → DBResult)
    (groups : List PollGroup) (states0 : String → String) :
    ((pollAndSaveCycle legacyEnabled db groups states0).2
      = DataSavedEvent.mk (pollAndSaveCycle legacyEnabled db groups states0).1.savedCount
          (pollAndSaveCycle legacyEnabled db groups states0).1.errorCount) ∧
    ((pollAndSaveCycle legacyEnabled db groups states0).1.attemptIndex
      = eligibleCount groups) ∧
    ((pollAndSaveCycle legacyEnabled db groups states0).1.savedCount
      = okCount db 0 (eligibleCount groups)) ∧
    ((pollAndSaveCycle legacyEnabled db groups states0).1.errorCount
      = failCount db 0 (eligibleCount groups)) := by
  have h := pollCycleFold_counts legacyEnabled db groups (initialPollAcc states0)
  refine ⟨rfl, ?_, ?_, ?_⟩
  · simpa [pollAndSaveCycle, initialPollAcc] using h.1
  · simpa [pollAndSaveCycle, initialPollAcc] using h.2.1
  · simpa [pollAndSaveCycle, initialPollAcc] using h.2.2

/-- C10: a decoded reading whose probe number has no configured entry is not
dropped: both loops process it under the group's first configured probe with
the probe number taken from the reading — the poll loop still issues its
persistence attempt with the borrowed calibration offset and thresholds, and
both loops alert-evaluate it under the borrowed configuration. -/
theorem missing_config_fallback (legacyEnabled mqttConnected : Bool) (db : ℕ → DBResult)
    (ip : String) (probes : List MasterMachine) (pacc : PollAcc) (aacc : AlertAcc)
    (pd : ProbeData)
    (hnone : buildProbeConfigs probes pd.probeNo = none)
    (hsent : ¬(pd.realValue = 65535 ∨ pd.realValue = -1))
    (hsane : ¬(MaxSensorTemp < roundHalfAway2 (pd.tempValue + probes.headI.getAdjTemp))) :
    ((pollProcessReading legacyEnabled db ip probes pacc pd).attemptedLogs
      = pacc.attemptedLogs ++
        [TempLog.mk ip pd.probeNo pd.mcuId
          (roundHalfAway2 (pd.tempValue + probes.headI.getAdjTemp)) pd.realValue
          (tempStatusOf probes.headI.getMinTemp probes.headI.getMaxTemp
            (roundHalfAway2 (pd.tempValue + probes.headI.getAdjTemp)))]) ∧
    ((pollProcessReading legacyEnabled db ip probes pacc pd).states
      = (checkProbeAlert legacyEnabled
          (defaultSType { probes.headI with probeNo := pd.probeNo }) pd.probeNo
          (roundHalfAway2 (pd.tempValue + probes.headI.getAdjTemp)) pacc.states).states) ∧
    ((alertProcessReading legacyEnabled mqttConnected ip probes aacc pd).states
      = (checkProbeAlert legacyEnabled { probes.headI with probeNo := pd.probeNo }
          pd.probeNo
          (roundHalfAway2 (pd.tempValue + probes.headI.getAdjTemp)) aacc.states).states) := by
  have hcfg : lookupProbeConfig probes pd.probeNo = { probes.headI with probeNo := pd.probeNo } := by
    unfold lookupProbeConfig
    rw [hnone]
    rfl
  have hadj : (defaultSType (lookupProbeConfig probes pd.probeNo)).getAdjTemp
      = probes.headI.getAdjTemp := by
    rw [hcfg, defaultSType_getAdjTemp]
    rfl
  have hmin : (defaultSType (lookupProbeConfig probes pd.probeNo)).getMinTemp
      = probes.headI.getMinTemp := by
    rw [hcfg, defaultSType_getMinTemp]
    rfl
  have hmax : (defaultSType (lookupProbeConfig probes pd.probeNo)).getMaxTemp
      = probes.headI.getMaxTemp := by
    rw [hcfg, defaultSType_getMaxTemp]
    rfl
  have hadj2 : (lookupProbeConfig probes pd.probeNo).getAdjTemp = probes.headI.getAdjTemp := by
    rw [hcfg]
    rfl
  refine ⟨?_, ?_, ?_⟩
  · cases hdb : db pacc.attemptIndex <;>
      simp [pollProcessReading, hsent, hdb, hadj, hmin, hmax, hsane]
  · cases hdb : db pacc.attemptIndex <;>
      simp [pollProcessReading, hsent, hdb, hadj, hsane] <;> rw [hcfg]
  · simp [alertProcessReading, hsent, hadj2, hsane]
    rw [hcfg]

/-- Witness: a reading for unconfigured probe 2 on an IP whose only config is
probe 1 is processed under probe 1's config with probe number 2. -/
theorem missing_config_fallback_witness :
    ((pollProcessReading false (fun _ => DBResult.ok) "10.0.0.1"
        [MasterMachine.mk "10.0.0.1" 1 "M1" (some 20) (some 30) (some 0) "t"]
        (initialPollAcc (fun _ => ""))
        (ProbeData.mk 2 "B" 25 6500 "00")).attemptedLogs
      = (initialPollAcc (fun _ => "")).attemptedLogs ++
        [TempLog.mk "10.0.0.1" (ProbeData.mk 2 "B" 25 6500 "00").probeNo
          (ProbeData.mk 2 "B" 25 6500 "00").mcuId
          (roundHalfAway2 ((ProbeData.mk 2 "B" 25 6500 "00").tempValue +
            ([MasterMachine.mk "10.0.0.1" 1 "M1" (some 20) (some 30) (some 0) "t"]).headI.getAdjTemp))
          (ProbeData.mk 2 "B" 25 6500 "00").realValue
          (tempStatusOf
            ([MasterMachine.mk "10.0.0.1" 1 "M1" (some 20) (some 30) (some 0) "t"]).headI.getMinTemp
            ([MasterMachine.mk "10.0.0.1" 1 "M1" (some 20) (some 30) (some 0) "t"]).headI.getMaxTemp
            (roundHalfAway2 ((ProbeData.mk 2 "B" 25 6500 "00").tempValue +
              ([MasterMachine.mk "10.0.0.1" 1 "M1" (some 20) (some 30) (some 0) "t"]).headI.getAdjTemp)))]) ∧
    ((pollProcessReading false (fun _ => DBResult.ok) "10.0.0.1"
        [MasterMachine.mk "10.0.0.1" 1 "M1" (some 20) (some 30) (some 0) "t"]
        (initialPollAcc (fun _ => ""))
        (ProbeData.mk 2 "B" 25 6500 "00")).states
      = (checkProbeAlert false
          (defaultSType { ([MasterMachine.mk "10.0.0.1" 1 "M1" (some 20) (some 30) (some 0) "t"]).headI
            with probeNo := (ProbeData.mk 2 "B" 25 6500 "00").probeNo })
          (ProbeData.mk 2 "B" 25 6500 "00").probeNo
          (roundHalfAway2 ((ProbeData.mk 2 "B" 25 6500 "00").tempValue +
            ([MasterMachine.mk "10.0.0.1" 1 "M1" (some 20) (some 30) (some 0) "t"]).headI.getAdjTemp))
          (initialPollAcc (fun _ => "")).states).states) ∧
    ((alertProcessReading false false "10.0.0.1"
        [MasterMachine.mk "10.0.0.1" 1 "M1" (some 20) (some 30) (some 0) "t"]
        (AlertAcc.mk [] [] [] (fun _ => ""))
        (ProbeData.mk 2 "B" 25 6500 "00")).states
      = (checkProbeAlert false
          { ([MasterMachine.mk "10.0.0.1" 1 "M1" (some 20) (some 30) (some 0) "t"]).headI
            with probeNo := (ProbeData.mk 2 "B" 25 6500 "00").probeNo }
          (ProbeData.mk 2 "B" 25 6500 "00").probeNo
          (roundHalfAway2 ((ProbeData.mk 2 "B" 25 6500 "00").tempValue +
            ([MasterMachine.mk "10.0.0.1" 1 "M1" (some 20) (some 30) (some 0) "t"]).headI.getAdjTemp))
          (AlertAcc.mk [] [] [] (fun _ => "")).states).states) :=
  missing_config_fallback false false (fun _ => DBResult.ok) "10.0.0.1"
    [MasterMachine.mk "10.0.0.1" 1 "M1" (some 20) (some 30) (some 0) "t"]
    (initialPollAcc (fun _ => "")) (AlertAcc.mk [] [] [] (fun _ => ""))
    (ProbeData.mk 2 "B" 25 6500 "00")
    (by simp [buildProbeConfigs, Function.update])
    (by norm_num)
    (by norm_num [MasterMachine.getAdjTemp, MaxSensorTemp, roundHalfAway2, mathRound])

/-- Outcome of one cycle body: normal completion or a panic. -/
inductive CycleOutcome where
  | ok
  | panics (msg : String)
deriving Repr, DecidableEq

/-- A cycle body as a fallible computation: a Go panic is `Except.error`. -/
def cycleBody : CycleOutcome → Except String Unit
  | CycleOutcome.ok => Except.ok ()
  | CycleOutcome.panics m => Except.error m

/-- A `defer func() { recover() }()` wrapper: any panic of the body is caught
and logged and the wrapped call returns normally. -/
def recoverWrap (body : Except String Unit) : Except String Unit :=
  match body with
  | Except.ok u => Except.ok u
  | Except.error _ => Except.ok ()

/-- `pollAndSave` installs its own `defer`/`recover` (part_001 lines 262-270),
so a panic inside a poll-and-save iteration is recovered at the cycle
boundary. -/
def pollAndSaveRun (c : CycleOutcome) : Except String Unit :=
  recoverWrap (cycleBody c)

/-- `checkAlerts` (part_001 lines 433-539) has no `defer`/`recover`, and
neither does the alert-checker goroutine of `Start` (lines 227-242): a panic
inside an alert-check iteration escapes the iteration. -/
def checkAlertsRun (c : CycleOutcome) : Except String Unit :=
  cycleBody c

/-- A ticker goroutine given each tick's cycle-body outcome: a tick whose
body returns normally is followed by the next tick; a panic escaping the
body terminates the goroutine (the poll goroutine's own deferred recover
still returns from the loop; the alert goroutine dies with an unrecovered
panic), so no further tick fires.  Returns how many ticks fired. -/
def tickerLoop (body : CycleOutcome → Except String Unit) : List CycleOutcome → ℕ
  | [] => 0
  | c :: cs =>
    match body c with
    | Except.ok _ => 1 + tickerLoop body cs
    | Except.error _ => 1

/-- C6 counterexample: a panic in the first alert-check iteration stops the
alert loop — the second scheduled tick never fires, contradicting the claim
for the alert-check loop. -/
theorem alert_loop_panic_cex :
    tickerLoop checkAlertsRun [CycleOutcome.panics "boom", CycleOutcome.ok] = 1 ∧
    [CycleOutcome.panics "boom", CycleOutcome.ok].length = 2 :=
  ⟨rfl, rfl⟩

/-- C6 (amended): a panic inside a poll-and-save iteration is recovered by
`pollAndSave`'s own deferred recover, and every subsequent poll tick still
fires; but `checkAlerts` and its goroutine have no recover, so a panic in an
alert-check iteration terminates the alert loop after that tick. -/
theorem cycle_panic_containment (ticks : List CycleOutcome) :
    (tickerLoop pollAndSaveRun ticks = ticks.length) ∧
    (∀ (m : String) (cs : List CycleOutcome),
      tickerLoop checkAlertsRun (CycleOutcome.panics m :: cs) = 1) := by
  constructor
  · induction ticks with
    | nil => rfl
    | cons c cs ih =>
      cases c <;> simp [tickerLoop, pollAndSaveRun, recoverWrap, cycleBody, ih] <;> omega
  · intro m cs
    rfl

/-- The lifecycle-relevant state of one `PollingService`: the `running` flag,
whether its once-allocated `stopChan` has been closed, and whether the two
periodic goroutines are still looping. -/
structure SchedulerState where
  running : Bool
  stopChanClosed : Bool
  pollLoopAlive : Bool
  alertLoopAlive : Bool
deriving Repr, DecidableEq

/-- `NewPollingService`: fresh (unclosed) stop channel, not running, no loops. -/
def newPollingService : SchedulerState :=
  SchedulerState.mk false false false false

/-- `Start` (part_001 lines 129-243): no-op when already running; otherwise it
sets `running` and launches both ticker goroutines.  `stopChan` is allocated
once in `NewPollingService` and never recreated; when it is already closed,
each goroutine's `select` finds `<-p.stopChan` immediately ready (the ticker
has not fired yet) and returns before any tick, so a loop stays alive only
while the stop channel is unclosed. -/
def SchedulerState.start (s : SchedulerState) : SchedulerState :=
  if s.running then s
  else { s with
    running := true,
    pollLoopAlive := !s.stopChanClosed,
    alertLoopAlive := !s.stopChanClosed }

/-- `Stop` (part_001 lines 246-258): no-op when not running; otherwise it
clears `running`, closes `stopChan` and blocks in `wg.Wait()` until both
goroutines have exited. -/
def SchedulerState.stop (s : SchedulerState) : SchedulerState :=
  if !s.running then s
  else SchedulerState.mk false true false false

/-- C7 counterexample: after a completed Stop, a second Start reports Running
but neither periodic loop is ticking — the closed stop channel makes both
goroutines exit before their first tick. -/
theorem restart_loops_dead_cex :
    newPollingService.start.stop.start.running = true ∧
    newPollingService.start.stop.start.pollLoopAlive = false ∧
    newPollingService.start.stop.start.alertLoopAlive = false :=
  ⟨rfl, rfl, rfl⟩

/-- C7 (amended): Start is a no-op when Running and Stop is a no-op when not
Running; the first Start runs both loops, Stop cancels both loops and
returns the engine to Idle; but a Start after a completed Stop only sets the
Running flag — the stop channel is never recreated, so both relaunched loops
exit immediately and never tick. -/
theorem scheduler_lifecycle_amended :
    (∀ s : SchedulerState, s.running = true → s.start = s) ∧
    (∀ s : SchedulerState, s.running = false → s.stop = s) ∧
    (newPollingService.start.running = true ∧
      newPollingService.start.pollLoopAlive = true ∧
      newPollingService.start.alertLoopAlive = true) ∧
    (newPollingService.start.stop.running = false ∧
      newPollingService.start.stop.pollLoopAlive = false ∧
      newPollingService.start.stop.alertLoopAlive = false) ∧
    (newPollingService.start.stop.start.running = true ∧
      newPollingService.start.stop.start.pollLoopAlive = false ∧
      newPollingService.start.stop.start.alertLoopAlive = false) := by
  refine ⟨?_, ?_, ⟨rfl, rfl, rfl⟩, ⟨rfl, rfl, rfl⟩, ⟨rfl, rfl, rfl⟩⟩
  · intro s hs
    simp [SchedulerState.start, hs]
  · intro s hs
    simp [SchedulerState.stop, hs]

/-- Witness: Start is a no-op on the running fresh service; Stop is a no-op
on the idle fresh service. -/
theorem scheduler_lifecycle_amended_witness :
    newPollingService.start.start = newPollingService.start ∧
    newPollingService.stop = newPollingService :=
  ⟨scheduler_lifecycle_amended.1 newPollingService.start rfl,
   scheduler_lifecycle_amended.2.1 newPollingService rfl⟩

/-- `make(chan DataSavedEvent, 10)` in `Subscribe`: every subscriber queue is
created with capacity 10. -/
def subscriberQueueCap : ℕ := 10

/-- `Subscribe` (part_001 lines 81-88): append a fresh empty queue. -/
def subscribe (subs : List (List DataSavedEvent)) : List (List DataSavedEvent) :=
  subs ++ [[]]

/-- The non-blocking `select { case ch <- event: default: }` try-send of
`notifySubscribers`: enqueue when the bounded queue has room, otherwise drop
the event for that subscriber. -/
def trySend (q : List DataSavedEvent) (e : DataSavedEvent) : List DataSavedEvent :=
  if q.length < subscriberQueueCap then q ++ [e] else q

/-- `notifySubscribers` (part_001 lines 688-700): one independent try-send
per subscriber; the publisher never blocks. -/
def notifySubscribers (subs : List (List DataSavedEvent)) (e : DataSavedEvent) :
    List (List DataSavedEvent) :=
  subs.map (fun q => trySend q e)

/-- C8: publishing delivers to each subscriber independently via a total
(never-blocking) try-send — a full queue (capacity 10) keeps its contents
with the new event dropped for that subscriber only, a non-full queue
receives the event at the tail — and the subscriber list itself is
unchanged. -/
theorem publish_non_blocking (subs : List (List DataSavedEvent))
    (e : DataSavedEvent) (i : ℕ) (hi : i < subs.length) :
    ((notifySubscribers subs e).length = subs.length) ∧
    ((notifySubscribers subs e).get? i = some (trySend (subs.get ⟨i, hi⟩) e)) ∧
    (subscriberQueueCap ≤ (subs.get ⟨i, hi⟩).length →
      trySend (subs.get ⟨i, hi⟩) e = subs.get ⟨i, hi⟩) ∧
    ((subs.get ⟨i, hi⟩).length < subscriberQueueCap →
      trySend (subs.get ⟨i, hi⟩) e = subs.get ⟨i, hi⟩ ++ [e]) ∧
    subscriberQueueCap = 10 := by
  refine ⟨by simp [notifySubscribers], ?_, ?_, ?_, rfl⟩
  · rw [notifySubscribers, List.get?_map, List.get?_eq_get hi]
    rfl
  · intro h
    unfold trySend
    rw [if_neg (by omega)]
  · intro h
    unfold trySend
    rw [if_pos h]

/-- Witness: publishing against a full queue and an empty queue drops the
event for the former only. -/
theorem publish_non_blocking_witness :
    ((notifySubscribers [List.replicate 10 (DataSavedEvent.mk 0 0), []]
        (DataSavedEvent.mk 1 2)).length
      = ([List.replicate 10 (DataSavedEvent.mk 0 0), []] :
          List (List DataSavedEvent)).length) ∧
    ((notifySubscribers [List.replicate 10 (DataSavedEvent.mk 0 0), []]
        (DataSavedEvent.mk 1 2)).get? 0
      = some (trySend (([List.replicate 10 (DataSavedEvent.mk 0 0), []] :
          List (List DataSavedEvent)).get ⟨0, by decide⟩ ) (DataSavedEvent.mk 1 2))) ∧
    (subscriberQueueCap ≤ (([List.replicate 10 (DataSavedEvent.mk 0 0), []] :
          List (List DataSavedEvent)).get ⟨0, by decide⟩).length →
      trySend (([List.replicate 10 (DataSavedEvent.mk 0 0), []] :
          List (List DataSavedEvent)).get ⟨0, by decide⟩) (DataSavedEvent.mk 1 2)
        = ([List.replicate 10 (DataSavedEvent.mk 0 0), []] :
          List (List DataSavedEvent)).get ⟨0, by decide⟩) ∧
    ((([List.replicate 10 (DataSavedEvent.mk 0 0), []] :
          List (List DataSavedEvent)).get ⟨0, by decide⟩).length < subscriberQueueCap →
      trySend (([List.replicate 10 (DataSavedEvent.mk 0 0), []] :
          List (List DataSavedEvent)).get ⟨0, by decide⟩) (DataSavedEvent.mk 1 2)
        = ([List.replicate 10 (DataSavedEvent.mk 0 0), []] :
          List (List DataSavedEvent)).get ⟨0, by decide⟩ ++ [DataSavedEvent.mk 1 2]) ∧
    subscriberQueueCap = 10 :=
  publish_non_blocking [List.replicate 10 (DataSavedEvent.mk 0 0), []]
    (DataSavedEvent.mk 1 2) 0 (by decide)
